import Mathlib

/-!
Shallow embedding of `pypots/imputation/csdi/data.py` (class `DatasetForCSDI`,
methods `_fetch_data_from_array` and `_fetch_data_from_file`), together with the
pieces of its collaborators that the methods touch.

Modelling decisions:
* A torch tensor is a dtype tag, a shape, and a flat list of exact rationals
  (idealising float32 arithmetic; none of the verified properties depend on
  rounding of non-integral values).
* The external masker `pygrinder.mcar` is an oracle parameter
  `m : Tensor → ℚ → MCARResult`; one call to a fetch method corresponds to one
  draw of the masker's randomness, and two fetches may use different oracles.
* The dict-like data containers (`self.data` in array mode, the h5py file
  handle in file mode) are a record of an `X` array and four optional arrays;
  key-membership tests become `Option` matches.
* Out-of-range integer indexing of the per-sample arrays raises IndexError in
  Python (torch / h5py); it is embedded as `Except Err` with `Err.IndexKind`.
-/

namespace PyPOTS.CSDI

/-- Tensor element dtypes that occur in the embedded code. -/
inductive DType where
  | float32
  | int64
deriving DecidableEq, Repr

/-- A torch tensor: dtype, shape, and the elements flattened row-major.
Values are exact rationals. -/
structure Tensor where
  dtype : DType
  shape : List Nat
  data : List ℚ
deriving DecidableEq, Repr

/-- torch dtype promotion for the two dtypes in play. -/
def DType.promote : DType → DType → DType
  | .float32, _ => .float32
  | _, .float32 => .float32
  | _, _ => .int64

/-- `.to(torch.float32)`: change dtype, keep values (idealised, exact). -/
def Tensor.toFloat32 (t : Tensor) : Tensor :=
  { t with dtype := .float32 }

/-- Truncation toward zero, as casting a float to int64 does. -/
def qtrunc (q : ℚ) : ℚ :=
  if 0 ≤ q then ((⌊q⌋ : ℤ) : ℚ) else ((⌈q⌉ : ℤ) : ℚ)

/-- `.long()` / `.to(torch.long)`: cast to int64, truncating toward zero. -/
def Tensor.toLong (t : Tensor) : Tensor :=
  { dtype := .int64, shape := t.shape, data := t.data.map qtrunc }

/-- Elementwise tensor addition (shapes assumed equal, as in the source). -/
def Tensor.add (a b : Tensor) : Tensor :=
  { dtype := a.dtype.promote b.dtype
    shape := a.shape
    data := List.zipWith (· + ·) a.data b.data }

/-- Python `len(tensor)`: the size of the first dimension. -/
def Tensor.len (t : Tensor) : Nat := t.shape.headD 0

/-- `torch.arange(0, n, dtype=torch.float32)`. -/
def Tensor.arangeF (n : Nat) : Tensor :=
  { dtype := .float32, shape := [n], data := (List.range n).map (fun i => (i : ℚ)) }

/-- `torch.zeros(n)` (default dtype float32). -/
def Tensor.zeros (n : Nat) : Tensor :=
  { dtype := .float32, shape := [n], data := List.replicate n 0 }

/-- `torch.tensor(idx)` for a Python int: a 0-dim int64 tensor. -/
def Tensor.scalarInt (n : Nat) : Tensor :=
  { dtype := .int64, shape := [], data := [(n : ℚ)] }

/-- The 4-tuple returned by `pygrinder.mcar(X, p)`:
`X_intact` (original intact series), `X` (series with artificial missingness),
`missing_mask` (original-missing mask), `indicating_mask` (synthetic-missing
mask marking the artificially hidden positions). -/
structure MCARResult where
  X_intact : Tensor
  X : Tensor
  missing_mask : Tensor
  indicating_mask : Tensor
deriving DecidableEq, Repr

/-- Error taxonomy from the spec: out-of-range index, missing mandatory field. -/
inductive Err where
  | IndexKind
  | SchemaKind
deriving DecidableEq, Repr

/-- Integer indexing `arr[idx]` of a per-sample array: IndexError (embedded as
`Err.IndexKind`) when the index is out of range. -/
def listGet (l : List Tensor) (i : Nat) : Except Err Tensor :=
  match l.get? i with
  | some t => .ok t
  | none => .error .IndexKind

/-- A dict-like data container (the in-memory `self.data` dict, or the mapping
exposed by an opened h5py file handle): a mandatory per-sample array `X` and
optional per-sample arrays `y`, `time_points`, `for_pattern_mask`,
`cut_length`.  `"k" in container.keys()` becomes `Option.isSome`. -/
structure DataSource where
  X : List Tensor
  y : Option (List Tensor)
  time_points : Option (List Tensor)
  for_pattern_mask : Option (List Tensor)
  cut_length : Option (List Tensor)
deriving DecidableEq, Repr

/-- The `DatasetForCSDI` object.  `data`, `return_labels`, `X`, `y` and
`n_steps` come from `BaseDataset.__init__` (`self.X = data["X"]`,
`self.y = data["y"] or None`, `n_steps` from the series shape); in file mode
`fileContents` is what `_open_file_handle` would expose and `file_handle` is
the lazily-opened handle, initially `none`.  `rate` is the MCAR rate set by
`DatasetForCSDI.__init__`. -/
structure DatasetForCSDI where
  data : DataSource
  return_labels : Bool
  rate : ℚ
  n_steps : Nat
  fileContents : DataSource
  file_handle : Option DataSource
deriving DecidableEq, Repr

/-- Modelled from the spec: `BaseDataset._open_file_handle` (the base class is
not under `src/`); it opens the backing file and exposes its contents as a
dict-like mapping — "lazy file-handle mode opens a file handle on first
access".  The contents of the file do not change between opens, so opening
yields `fileContents`. -/
def DatasetForCSDI.openFileHandle (self : DatasetForCSDI) : DataSource :=
  self.fileContents

/-- `DatasetForCSDI._fetch_data_from_array`, embedded line by line.  The method
mutates no attribute of `self`, so its stateful reading returns `self`
unchanged alongside the sample.  `m` is the `mcar` oracle (one draw of
randomness). -/
def DatasetForCSDI.fetch_data_from_array (self : DatasetForCSDI)
    (m : Tensor → ℚ → MCARResult) (idx : Nat) :
    DatasetForCSDI × Except Err (List Tensor) :=
  (self,
    match listGet self.data.X idx with
    | .error e => .error e
    | .ok X0 =>
      -- X = self.X[idx].to(torch.float32)
      let X := X0.toFloat32
      -- X_intact, X, missing_mask, indicating_mask = mcar(X, p=self.rate)
      let r := m X self.rate
      let observed_data := r.X_intact
      let observed_mask := r.missing_mask.add r.indicating_mask
      let gt_mask := r.missing_mask
      let observed_tp_e : Except Err Tensor :=
        match self.data.time_points with
        | none => .ok (Tensor.arangeF self.n_steps)
        | some tps =>
          match listGet tps idx with
          | .error e => .error e
          | .ok t => .ok t.toFloat32
      match observed_tp_e with
      | .error e => .error e
      | .ok observed_tp =>
        let for_pattern_mask_e : Except Err Tensor :=
          match self.data.for_pattern_mask with
          | none => .ok gt_mask
          | some fpms =>
            match listGet fpms idx with
            | .error e => .error e
            | .ok t => .ok t.toFloat32
        match for_pattern_mask_e with
        | .error e => .error e
        | .ok for_pattern_mask =>
          let cut_length_e : Except Err Tensor :=
            match self.data.cut_length with
            | none => .ok (Tensor.zeros observed_data.len).toLong
            | some cls =>
              match listGet cls idx with
              | .error e => .error e
              | .ok t => .ok t.toFloat32
          match cut_length_e with
          | .error e => .error e
          | .ok cut_length =>
            let sample : List Tensor :=
              [Tensor.scalarInt idx, observed_data, observed_mask, observed_tp,
               gt_mask, for_pattern_mask, cut_length]
            -- if self.y is not None and self.return_labels: append y[idx].to(long)
            match self.data.y, self.return_labels with
            | some ys, true =>
              match listGet ys idx with
              | .error e => .error e
              | .ok yrow => .ok (sample ++ [yrow.toLong])
            | some _, false => .ok sample
            | none, _ => .ok sample)

/-- The dict-like container a file-mode fetch reads from: the already-open
handle if there is one, else the handle opened on this call. -/
def DatasetForCSDI.effectiveHandle (self : DatasetForCSDI) : DataSource :=
  match self.file_handle with
  | none => self.openFileHandle
  | some h => h

/-- `DatasetForCSDI._fetch_data_from_file`, embedded line by line.  The method
first opens the file handle if it is unset, then reads everything from the
handle.  Returned: the updated `self` and the sample. -/
def DatasetForCSDI.fetch_data_from_file (self : DatasetForCSDI)
    (m : Tensor → ℚ → MCARResult) (idx : Nat) :
    DatasetForCSDI × Except Err (List Tensor) :=
  -- if self.file_handle is None: self.file_handle = self._open_file_handle()
  let fh : DataSource := self.effectiveHandle
  let self1 : DatasetForCSDI := { self with file_handle := some fh }
  (self1,
    match listGet fh.X idx with
    | .error e => .error e
    | .ok X0 =>
      -- X = torch.from_numpy(self.file_handle["X"][idx]).to(torch.float32)
      let X := X0.toFloat32
      let r := m X self.rate
      let observed_data := r.X_intact
      let observed_mask := r.missing_mask.add r.indicating_mask
      let gt_mask := r.indicating_mask
      let observed_tp_e : Except Err Tensor :=
        match fh.time_points with
        | none => .ok (Tensor.arangeF self.n_steps)
        | some tps =>
          match listGet tps idx with
          | .error e => .error e
          | .ok t => .ok t.toFloat32
      match observed_tp_e with
      | .error e => .error e
      | .ok observed_tp =>
        let for_pattern_mask_e : Except Err Tensor :=
          match fh.for_pattern_mask with
          | none => .ok gt_mask
          | some fpms =>
            match listGet fpms idx with
            | .error e => .error e
            | .ok t => .ok t.toFloat32
        match for_pattern_mask_e with
        | .error e => .error e
        | .ok for_pattern_mask =>
          let cut_length_e : Except Err Tensor :=
            match fh.cut_length with
            | none => .ok (Tensor.zeros observed_data.len).toLong
            | some cls =>
              match listGet cls idx with
              | .error e => .error e
              | .ok t => .ok t.toFloat32
          match cut_length_e with
          | .error e => .error e
          | .ok cut_length =>
            let sample : List Tensor :=
              [Tensor.scalarInt idx, observed_data, observed_mask, observed_tp,
               gt_mask, for_pattern_mask, cut_length]
            -- if "y" in self.file_handle.keys() and self.return_labels: append
            match fh.y, self.return_labels with
            | some ys, true =>
              match listGet ys idx with
              | .error e => .error e
              | .ok yrow => .ok (sample ++ [yrow.toLong])
            | some _, false => .ok sample
            | none, _ => .ok sample)

/-- How `observed_tp` is resolved (both modes): default `arange` when the
source has no `time_points` key, else the per-sample row cast to float32. -/
def TPRes (src : DataSource) (n_steps idx : Nat) (tp : Tensor) : Prop :=
  (src.time_points = none ∧ tp = Tensor.arangeF n_steps) ∨
  (∃ tps t, src.time_points = some tps ∧ listGet tps idx = .ok t ∧ tp = t.toFloat32)

/-- How `for_pattern_mask` is resolved (both modes): default `gt` when the
source has no `for_pattern_mask` key, else the per-sample row cast to
float32. -/
def FPMRes (src : DataSource) (idx : Nat) (gt fpm : Tensor) : Prop :=
  (src.for_pattern_mask = none ∧ fpm = gt) ∨
  (∃ ls t, src.for_pattern_mask = some ls ∧ listGet ls idx = .ok t ∧ fpm = t.toFloat32)

/-- How `cut_length` is resolved (both modes): default
`torch.zeros(len(observed_data)).long()` when the source has no `cut_length`
key, else the per-sample row cast to float32. -/
def CLRes (src : DataSource) (idx n : Nat) (cl : Tensor) : Prop :=
  (src.cut_length = none ∧ cl = (Tensor.zeros n).toLong) ∨
  (∃ ls t, src.cut_length = some ls ∧ listGet ls idx = .ok t ∧ cl = t.toFloat32)

/-- The sample list assembled by both fetch methods, given the index, the
masker result, the selected `gt_mask` and the three resolved auxiliaries. -/
def sampleOf (idx : Nat) (r : MCARResult) (gt tp fpm cl : Tensor)
    (lbl : Option Tensor) : List Tensor :=
  [Tensor.scalarInt idx, r.X_intact, r.missing_mask.add r.indicating_mask,
   tp, gt, fpm, cl] ++ (match lbl with | none => [] | some l => [l])

/-- The label appended to a sample, when the source has labels and
`return_labels` is set: `y[idx]` cast to int64. -/
def LblRes (ysrc : Option (List Tensor)) (return_labels : Bool) (idx : Nat)
    (lbl : Option Tensor) : Prop :=
  (lbl = none ∧ (ysrc = none ∨ return_labels = false)) ∨
  (∃ ys yrow, ysrc = some ys ∧ return_labels = true ∧
    listGet ys idx = .ok yrow ∧ lbl = some yrow.toLong)

/-- Characterisation of a successful array-mode fetch: the sample is
`sampleOf` with `gt_mask = missing_mask` and the auxiliaries resolved from
`self.data`. -/
lemma fetch_array_ok {ds : DatasetForCSDI} {m : Tensor → ℚ → MCARResult}
    {idx : Nat} {s : List Tensor}
    (h : (ds.fetch_data_from_array m idx).2 = .ok s) :
    ∃ row tp fpm cl lbl,
      listGet ds.data.X idx = .ok row ∧
      TPRes ds.data ds.n_steps idx tp ∧
      FPMRes ds.data idx (m row.toFloat32 ds.rate).missing_mask fpm ∧
      CLRes ds.data idx (m row.toFloat32 ds.rate).X_intact.len cl ∧
      LblRes ds.data.y ds.return_labels idx lbl ∧
      s = sampleOf idx (m row.toFloat32 ds.rate)
            (m row.toFloat32 ds.rate).missing_mask tp fpm cl lbl := by
  unfold DatasetForCSDI.fetch_data_from_array at h
  simp only at h
  split at h
  · exact absurd h (by simp)
  · rename_i X0 hX0
    refine ⟨X0, ?_⟩
    split at h
    · exact absurd h (by simp)
    · rename_i tp htp
      split at h
      · exact absurd h (by simp)
      · rename_i fpm hfpm
        split at h
        · exact absurd h (by simp)
        · rename_i cl hcl
          have htp' : TPRes ds.data ds.n_steps idx tp := by
            unfold TPRes
            split at htp
            · left; cases htp; simp_all
            · rename_i tps hsome
              split at htp
              · exact absurd htp (by simp)
              · cases htp; exact Or.inr ⟨tps, _, hsome, by assumption, rfl⟩
          have hfpm' : FPMRes ds.data idx (m X0.toFloat32 ds.rate).missing_mask fpm := by
            unfold FPMRes
            split at hfpm
            · left; cases hfpm; simp_all
            · rename_i ls hsome
              split at hfpm
              · exact absurd hfpm (by simp)
              · cases hfpm; exact Or.inr ⟨ls, _, hsome, by assumption, rfl⟩
          have hcl' : CLRes ds.data idx (m X0.toFloat32 ds.rate).X_intact.len cl := by
            unfold CLRes
            split at hcl
            · left; cases hcl; simp_all
            · rename_i ls hsome
              split at hcl
              · exact absurd hcl (by simp)
              · cases hcl; exact Or.inr ⟨ls, _, hsome, by assumption, rfl⟩
          split at h
          · rename_i ys hys hrl
            split at h
            · exact absurd h (by simp)
            · rename_i yrow hyrow
              cases h
              exact ⟨tp, fpm, cl, some yrow.toLong, hX0, htp', hfpm', hcl',
                Or.inr ⟨ys, yrow, hys, hrl, hyrow, rfl⟩, by simp [sampleOf]⟩
          · rename_i hys hrl
            cases h
            exact ⟨tp, fpm, cl, none, hX0, htp', hfpm', hcl',
              Or.inl ⟨rfl, by right; assumption⟩, by simp [sampleOf]⟩
          · rename_i hys hrl
            cases h
            exact ⟨tp, fpm, cl, none, hX0, htp', hfpm', hcl',
              Or.inl ⟨rfl, by left; assumption⟩, by simp [sampleOf]⟩

/-- Characterisation of a successful file-mode fetch: the sample is `sampleOf`
with `gt_mask = indicating_mask` and the auxiliaries resolved from the
(lazily opened) file handle. -/
lemma fetch_file_ok {ds : DatasetForCSDI} {m : Tensor → ℚ → MCARResult}
    {idx : Nat} {s : List Tensor}
    (h : (ds.fetch_data_from_file m idx).2 = .ok s) :
    ∃ row tp fpm cl lbl,
      listGet ds.effectiveHandle.X idx = .ok row ∧
      TPRes ds.effectiveHandle ds.n_steps idx tp ∧
      FPMRes ds.effectiveHandle idx (m row.toFloat32 ds.rate).indicating_mask fpm ∧
      CLRes ds.effectiveHandle idx (m row.toFloat32 ds.rate).X_intact.len cl ∧
      LblRes ds.effectiveHandle.y ds.return_labels idx lbl ∧
      s = sampleOf idx (m row.toFloat32 ds.rate)
            (m row.toFloat32 ds.rate).indicating_mask tp fpm cl lbl := by
  unfold DatasetForCSDI.fetch_data_from_file at h
  simp only at h
  split at h
  · exact absurd h (by simp)
  · rename_i X0 hX0
    refine ⟨X0, ?_⟩
    split at h
    · exact absurd h (by simp)
    · rename_i tp htp
      split at h
      · exact absurd h (by simp)
      · rename_i fpm hfpm
        split at h
        · exact absurd h (by simp)
        · rename_i cl hcl
          have htp' : TPRes ds.effectiveHandle ds.n_steps idx tp := by
            unfold TPRes
            split at htp
            · left; cases htp; simp_all
            · rename_i tps hsome
              split at htp
              · exact absurd htp (by simp)
              · cases htp; exact Or.inr ⟨tps, _, hsome, by assumption, rfl⟩
          have hfpm' : FPMRes ds.effectiveHandle idx
              (m X0.toFloat32 ds.rate).indicating_mask fpm := by
            unfold FPMRes
            split at hfpm
            · left; cases hfpm; simp_all
            · rename_i ls hsome
              split at hfpm
              · exact absurd hfpm (by simp)
              · cases hfpm; exact Or.inr ⟨ls, _, hsome, by assumption, rfl⟩
          have hcl' : CLRes ds.effectiveHandle idx
              (m X0.toFloat32 ds.rate).X_intact.len cl := by
            unfold CLRes
            split at hcl
            · left; cases hcl; simp_all
            · rename_i ls hsome
              split at hcl
              · exact absurd hcl (by simp)
              · cases hcl; exact Or.inr ⟨ls, _, hsome, by assumption, rfl⟩
          split at h
          · rename_i ys hys hrl
            split at h
            · exact absurd h (by simp)
            · rename_i yrow hyrow
              cases h
              exact ⟨tp, fpm, cl, some yrow.toLong, hX0, htp', hfpm', hcl',
                Or.inr ⟨ys, yrow, hys, hrl, hyrow, rfl⟩, by simp [sampleOf]⟩
          · rename_i hys hrl
            cases h
            exact ⟨tp, fpm, cl, none, hX0, htp', hfpm', hcl',
              Or.inl ⟨rfl, by right; assumption⟩, by simp [sampleOf]⟩
          · rename_i hys hrl
            cases h
            exact ⟨tp, fpm, cl, none, hX0, htp', hfpm', hcl',
              Or.inl ⟨rfl, by left; assumption⟩, by simp [sampleOf]⟩

lemma listGet_ok_iff {l : List Tensor} {i : Nat} {t : Tensor} :
    listGet l i = .ok t ↔ l.get? i = some t := by
  unfold listGet
  cases hg : l.get? i <;> simp [hg]

lemma listGet_err_of_le {l : List Tensor} {i : Nat} (h : l.length ≤ i) :
    listGet l i = .error .IndexKind := by
  unfold listGet
  rw [List.get?_eq_none.mpr h]

lemma sampleOf_get?_0 (idx : Nat) (r : MCARResult) (gt tp fpm cl : Tensor)
    (lbl : Option Tensor) :
    (sampleOf idx r gt tp fpm cl lbl).get? 0 = some (Tensor.scalarInt idx) := by
  cases lbl <;> rfl

lemma sampleOf_get?_1 (idx : Nat) (r : MCARResult) (gt tp fpm cl : Tensor)
    (lbl : Option Tensor) :
    (sampleOf idx r gt tp fpm cl lbl).get? 1 = some r.X_intact := by
  cases lbl <;> rfl

lemma sampleOf_get?_2 (idx : Nat) (r : MCARResult) (gt tp fpm cl : Tensor)
    (lbl : Option Tensor) :
    (sampleOf idx r gt tp fpm cl lbl).get? 2 =
      some (r.missing_mask.add r.indicating_mask) := by
  cases lbl <;> rfl

lemma sampleOf_get?_3 (idx : Nat) (r : MCARResult) (gt tp fpm cl : Tensor)
    (lbl : Option Tensor) :
    (sampleOf idx r gt tp fpm cl lbl).get? 3 = some tp := by
  cases lbl <;> rfl

lemma sampleOf_get?_4 (idx : Nat) (r : MCARResult) (gt tp fpm cl : Tensor)
    (lbl : Option Tensor) :
    (sampleOf idx r gt tp fpm cl lbl).get? 4 = some gt := by
  cases lbl <;> rfl

lemma sampleOf_get?_5 (idx : Nat) (r : MCARResult) (gt tp fpm cl : Tensor)
    (lbl : Option Tensor) :
    (sampleOf idx r gt tp fpm cl lbl).get? 5 = some fpm := by
  cases lbl <;> rfl

lemma sampleOf_get?_6 (idx : Nat) (r : MCARResult) (gt tp fpm cl : Tensor)
    (lbl : Option Tensor) :
    (sampleOf idx r gt tp fpm cl lbl).get? 6 = some cl := by
  cases lbl <;> rfl

lemma sampleOf_length_none (idx : Nat) (r : MCARResult) (gt tp fpm cl : Tensor) :
    (sampleOf idx r gt tp fpm cl none).length = 7 := rfl

lemma sampleOf_length_some (idx : Nat) (r : MCARResult) (gt tp fpm cl l : Tensor) :
    (sampleOf idx r gt tp fpm cl (some l)).length = 8 := rfl

lemma sampleOf_getLast_some (idx : Nat) (r : MCARResult) (gt tp fpm cl l : Tensor) :
    (sampleOf idx r gt tp fpm cl (some l)).getLast? = some l := rfl

/-! Concrete fixtures used by witness and counterexample theorems: a dataset
with one sample of 2 steps × 1 feature, no optional fields, and a
deterministic draw of the masker. -/

/-- Fixture: one raw series row, 2 steps × 1 feature. -/
def exRow : Tensor := ⟨.float32, [2, 1], [5, 0]⟩

/-- Fixture: a data container holding only `X`, no optional fields. -/
def exSrc : DataSource :=
  { X := [exRow], y := none, time_points := none, for_pattern_mask := none,
    cut_length := none }

/-- Fixture: a dataset over `exSrc`, usable in both storage modes. -/
def exDS : DatasetForCSDI :=
  { data := exSrc, return_labels := true, rate := 1/10, n_steps := 2,
    fileContents := exSrc, file_handle := none }

/-- Fixture: one concrete draw of the masker — nothing hidden, everything
observed (`missing_mask` all ones, `indicating_mask` all zeros). -/
def exM : Tensor → ℚ → MCARResult := fun X _ =>
  { X_intact := X, X := X,
    missing_mask := ⟨.float32, X.shape, List.replicate X.data.length 1⟩,
    indicating_mask := ⟨.float32, X.shape, List.replicate X.data.length 0⟩ }

/-- The sample `exDS.fetch_data_from_array exM 0` produces. -/
def exSampleA : List Tensor :=
  [Tensor.scalarInt 0, ⟨.float32, [2, 1], [5, 0]⟩, ⟨.float32, [2, 1], [1, 1]⟩,
   ⟨.float32, [2], [0, 1]⟩, ⟨.float32, [2, 1], [1, 1]⟩,
   ⟨.float32, [2, 1], [1, 1]⟩, ⟨.int64, [2], [0, 0]⟩]

/-- The sample `exDS.fetch_data_from_file exM 0` produces (`gt_mask` is the
indicating mask here, hence all zeros, and so is the `for_pattern_mask`
default). -/
def exSampleF : List Tensor :=
  [Tensor.scalarInt 0, ⟨.float32, [2, 1], [5, 0]⟩, ⟨.float32, [2, 1], [1, 1]⟩,
   ⟨.float32, [2], [0, 1]⟩, ⟨.float32, [2, 1], [0, 0]⟩,
   ⟨.float32, [2, 1], [0, 0]⟩, ⟨.int64, [2], [0, 0]⟩]

/-- C1: for every in-range index, the in-memory fetch path sets `gt_mask`
(position 4 of the sample) to the original-missing-mask (`missing_mask`)
returned by the masker, while the file-backed fetch path sets it to the
synthetic-missing-mask (`indicating_mask`) returned by the masker. -/
theorem claim_C1_gt_mask_mode (ds : DatasetForCSDI) (m : Tensor → ℚ → MCARResult)
    (idx : Nat) (row : Tensor) (s : List Tensor) :
    (ds.data.X.get? idx = some row →
      (ds.fetch_data_from_array m idx).2 = .ok s →
      s.get? 4 = some (m row.toFloat32 ds.rate).missing_mask) ∧
    (ds.effectiveHandle.X.get? idx = some row →
      (ds.fetch_data_from_file m idx).2 = .ok s →
      s.get? 4 = some (m row.toFloat32 ds.rate).indicating_mask) := by
  constructor
  · intro hrow h
    obtain ⟨row', tp, fpm, cl, lbl, hX, _, _, _, _, hs⟩ := fetch_array_ok h
    rw [listGet_ok_iff, hrow] at hX
    cases hX
    rw [hs, sampleOf_get?_4]
  · intro hrow h
    obtain ⟨row', tp, fpm, cl, lbl, hX, _, _, _, _, hs⟩ := fetch_file_ok h
    rw [listGet_ok_iff, hrow] at hX
    cases hX
    rw [hs, sampleOf_get?_4]

/-- Witness for C1 at the concrete fixture. -/
theorem claim_C1_witness :
    exSampleA.get? 4 = some (exM exRow.toFloat32 exDS.rate).missing_mask ∧
    exSampleF.get? 4 = some (exM exRow.toFloat32 exDS.rate).indicating_mask :=
  ⟨(claim_C1_gt_mask_mode exDS exM 0 exRow exSampleA).1 (by simp [exDS, exSrc])
      (by simp [DatasetForCSDI.fetch_data_from_array, listGet, exDS, exSrc, exM,
        exRow, Tensor.add, Tensor.toFloat32, Tensor.toLong, Tensor.zeros,
        Tensor.arangeF, Tensor.len, Tensor.scalarInt, exSampleA, DType.promote,
        qtrunc, List.range_succ]),
   (claim_C1_gt_mask_mode exDS exM 0 exRow exSampleF).2
      (by simp [exDS, exSrc, DatasetForCSDI.effectiveHandle, DatasetForCSDI.openFileHandle])
      (by simp [DatasetForCSDI.fetch_data_from_file, DatasetForCSDI.effectiveHandle,
        DatasetForCSDI.openFileHandle, listGet, exDS, exSrc, exM,
        exRow, Tensor.add, Tensor.toFloat32, Tensor.toLong, Tensor.zeros,
        Tensor.arangeF, Tensor.len, Tensor.scalarInt, exSampleF, DType.promote,
        qtrunc, List.range_succ])⟩

/-- C6: in both storage modes, when the source has no `for_pattern_mask`
field, position 5 of the returned sample (`for_pattern_mask`) equals exactly
position 4 (`gt_mask`). -/
theorem claim_C6_fpm_default (ds : DatasetForCSDI) (m : Tensor → ℚ → MCARResult)
    (idx : Nat) (s : List Tensor) :
    ((ds.fetch_data_from_array m idx).2 = .ok s →
      ds.data.for_pattern_mask = none → s.get? 5 = s.get? 4) ∧
    ((ds.fetch_data_from_file m idx).2 = .ok s →
      ds.effectiveHandle.for_pattern_mask = none → s.get? 5 = s.get? 4) := by
  constructor
  · intro h habs
    obtain ⟨row, tp, fpm, cl, lbl, _, _, hfpm, _, _, hs⟩ := fetch_array_ok h
    rcases hfpm with ⟨_, hdef⟩ | ⟨ls, t, hsome, _, _⟩
    · rw [hs, sampleOf_get?_5, sampleOf_get?_4, hdef]
    · rw [habs] at hsome; cases hsome
  · intro h habs
    obtain ⟨row, tp, fpm, cl, lbl, _, _, hfpm, _, _, hs⟩ := fetch_file_ok h
    rcases hfpm with ⟨_, hdef⟩ | ⟨ls, t, hsome, _, _⟩
    · rw [hs, sampleOf_get?_5, sampleOf_get?_4, hdef]
    · rw [habs] at hsome; cases hsome

/-- Witness for C6 at the concrete fixture. -/
theorem claim_C6_witness :
    exSampleA.get? 5 = exSampleA.get? 4 ∧ exSampleF.get? 5 = exSampleF.get? 4 :=
  ⟨(claim_C6_fpm_default exDS exM 0 exSampleA).1
      (by simp [DatasetForCSDI.fetch_data_from_array, listGet, exDS, exSrc, exM,
        exRow, Tensor.add, Tensor.toFloat32, Tensor.toLong, Tensor.zeros,
        Tensor.arangeF, Tensor.len, Tensor.scalarInt, exSampleA, DType.promote,
        qtrunc, List.range_succ]) rfl,
   (claim_C6_fpm_default exDS exM 0 exSampleF).2
      (by simp [DatasetForCSDI.fetch_data_from_file, DatasetForCSDI.effectiveHandle,
        DatasetForCSDI.openFileHandle, listGet, exDS, exSrc, exM,
        exRow, Tensor.add, Tensor.toFloat32, Tensor.toLong, Tensor.zeros,
        Tensor.arangeF, Tensor.len, Tensor.scalarInt, exSampleF, DType.promote,
        qtrunc, List.range_succ]) rfl⟩

/-- C7: in both storage modes, when the source has no `time_points` field,
position 3 of the returned sample (`time_points`) is the float32 sequence
`0, 1, ..., n_steps - 1` of length `n_steps`. -/
theorem claim_C7_tp_default (ds : DatasetForCSDI) (m : Tensor → ℚ → MCARResult)
    (idx : Nat) (s : List Tensor) :
    ((ds.fetch_data_from_array m idx).2 = .ok s →
      ds.data.time_points = none →
      s.get? 3 = some ⟨.float32, [ds.n_steps],
        (List.range ds.n_steps).map (fun i => (i : ℚ))⟩) ∧
    ((ds.fetch_data_from_file m idx).2 = .ok s →
      ds.effectiveHandle.time_points = none →
      s.get? 3 = some ⟨.float32, [ds.n_steps],
        (List.range ds.n_steps).map (fun i => (i : ℚ))⟩) := by
  constructor
  · intro h habs
    obtain ⟨row, tp, fpm, cl, lbl, _, htp, _, _, _, hs⟩ := fetch_array_ok h
    rcases htp with ⟨_, hdef⟩ | ⟨tps, t, hsome, _, _⟩
    · rw [hs, sampleOf_get?_3, hdef]; rfl
    · rw [habs] at hsome; cases hsome
  · intro h habs
    obtain ⟨row, tp, fpm, cl, lbl, _, htp, _, _, _, hs⟩ := fetch_file_ok h
    rcases htp with ⟨_, hdef⟩ | ⟨tps, t, hsome, _, _⟩
    · rw [hs, sampleOf_get?_3, hdef]; rfl
    · rw [habs] at hsome; cases hsome

/-- Witness for C7 at the concrete fixture. -/
theorem claim_C7_witness :
    exSampleA.get? 3 = some ⟨.float32, [exDS.n_steps],
      (List.range exDS.n_steps).map (fun i => (i : ℚ))⟩ ∧
    exSampleF.get? 3 = some ⟨.float32, [exDS.n_steps],
      (List.range exDS.n_steps).map (fun i => (i : ℚ))⟩ :=
  ⟨(claim_C7_tp_default exDS exM 0 exSampleA).1
      (by simp [DatasetForCSDI.fetch_data_from_array, listGet, exDS, exSrc, exM,
        exRow, Tensor.add, Tensor.toFloat32, Tensor.toLong, Tensor.zeros,
        Tensor.arangeF, Tensor.len, Tensor.scalarInt, exSampleA, DType.promote,
        qtrunc, List.range_succ]) rfl,
   (claim_C7_tp_default exDS exM 0 exSampleF).2
      (by simp [DatasetForCSDI.fetch_data_from_file, DatasetForCSDI.effectiveHandle,
        DatasetForCSDI.openFileHandle, listGet, exDS, exSrc, exM,
        exRow, Tensor.add, Tensor.toFloat32, Tensor.toLong, Tensor.zeros,
        Tensor.arangeF, Tensor.len, Tensor.scalarInt, exSampleF, DType.promote,
        qtrunc, List.range_succ]) rfl⟩

/-- C8: in both storage modes, fetching any index at or past the number of
stored samples fails with the IndexKind error and returns no sample. -/
theorem claim_C8_index_error (ds : DatasetForCSDI) (m : Tensor → ℚ → MCARResult)
    (idx : Nat) :
    (ds.data.X.length ≤ idx →
      (ds.fetch_data_from_array m idx).2 = .error .IndexKind) ∧
    (ds.effectiveHandle.X.length ≤ idx →
      (ds.fetch_data_from_file m idx).2 = .error .IndexKind) := by
  constructor
  · intro h
    unfold DatasetForCSDI.fetch_data_from_array
    rw [listGet_err_of_le h]
  · intro h
    unfold DatasetForCSDI.fetch_data_from_file
    simp only
    rw [listGet_err_of_le h]

/-- Witness for C8 at the concrete fixture: the dataset holds one sample, and
index 1 (= the dataset length) fails in both modes. -/
theorem claim_C8_witness :
    (exDS.fetch_data_from_array exM 1).2 = .error .IndexKind ∧
    (exDS.fetch_data_from_file exM 1).2 = .error .IndexKind :=
  ⟨(claim_C8_index_error exDS exM 1).1 (by simp [exDS, exSrc]),
   (claim_C8_index_error exDS exM 1).2
      (by simp [exDS, exSrc, DatasetForCSDI.effectiveHandle, DatasetForCSDI.openFileHandle])⟩

/-- A mask tensor is binary: every entry is 0 or 1. -/
def BinaryT (t : Tensor) : Prop := ∀ v ∈ t.data, v = 0 ∨ v = 1

/-- Two mask tensors are pointwise disjoint: every pointwise product is 0. -/
def DisjointT (a b : Tensor) : Prop :=
  ∀ p ∈ List.zipWith (· * ·) a.data b.data, p = 0

/-- Pointwise logical OR on mask entries: 0 when both are 0, else 1. -/
def orQ (a b : ℚ) : ℚ := if a = 0 ∧ b = 0 then 0 else 1

lemma zipWith_add_binary_disjoint (a : List ℚ) :
    ∀ (b : List ℚ), (∀ v ∈ a, v = 0 ∨ v = 1) → (∀ v ∈ b, v = 0 ∨ v = 1) →
    (∀ p ∈ List.zipWith (· * ·) a b, p = 0) →
    List.zipWith (· + ·) a b = List.zipWith orQ a b ∧
      (∀ v ∈ List.zipWith (· + ·) a b, v = 0 ∨ v = 1) := by
  induction a with
  | nil => intro b _ _ _; simp
  | cons x xs ih =>
    intro b ha hb hd
    cases b with
    | nil => simp
    | cons y ys =>
      have hx := ha x (by simp)
      have hy := hb y (by simp)
      have hxy : x * y = 0 := hd (x * y) (by simp)
      obtain ⟨ih1, ih2⟩ := ih ys (fun v hv => ha v (by simp [hv]))
        (fun v hv => hb v (by simp [hv])) (fun p hp => hd p (by simp [hp]))
      have hhead : x + y = orQ x y := by
        rcases hx with rfl | rfl <;> rcases hy with rfl | rfl
        · simp [orQ]
        · simp [orQ]
        · simp [orQ]
        · exfalso; rw [one_mul] at hxy; exact one_ne_zero hxy
      refine ⟨?_, ?_⟩
      · simp only [List.zipWith_cons_cons, ih1, hhead]
      · intro v hv
        simp only [List.zipWith_cons_cons, List.mem_cons] at hv
        rcases hv with rfl | hv
        · rcases hx with rfl | rfl <;> rcases hy with rfl | rfl
          · left; norm_num
          · right; norm_num
          · right; norm_num
          · exfalso; rw [one_mul] at hxy; exact one_ne_zero hxy
        · exact ih2 v hv

/-- Fixture: a label row. -/
def exYrow : Tensor := ⟨.int64, [], [3]⟩

/-- Fixture: `exSrc` with labels added. -/
def exSrcY : DataSource := { exSrc with y := some [exYrow] }

/-- Fixture: a labelled dataset (labels in both the dict and the file). -/
def exDSy : DatasetForCSDI := { exDS with data := exSrcY, fileContents := exSrcY }

/-- The sample `exDSy.fetch_data_from_array exM 0` produces. -/
def exSampleAY : List Tensor := exSampleA ++ [⟨.int64, [], [3]⟩]

/-- The sample `exDSy.fetch_data_from_file exM 0` produces. -/
def exSampleFY : List Tensor := exSampleF ++ [⟨.int64, [], [3]⟩]

/-- C2: in both storage modes, the returned sample is the ordered sequence
`[index, observed_data, observed_mask, time_points, gt_mask,
for_pattern_mask, cut_length]` (= `sampleOf`) of length 7 when labels are
absent from the source or `return_labels` is false, and of length 8 with the
int64-cast label as the last element when labels are present and
`return_labels` is true. -/
theorem claim_C2_sample_shape (ds : DatasetForCSDI) (m : Tensor → ℚ → MCARResult)
    (idx : Nat) (s : List Tensor) :
    ((ds.fetch_data_from_array m idx).2 = .ok s →
      ∃ row tp fpm cl,
        listGet ds.data.X idx = .ok row ∧
        (¬(ds.data.y.isSome ∧ ds.return_labels = true) →
          s = sampleOf idx (m row.toFloat32 ds.rate)
                (m row.toFloat32 ds.rate).missing_mask tp fpm cl none ∧
          s.length = 7) ∧
        (∀ ys, ds.data.y = some ys → ds.return_labels = true →
          ∃ yrow, listGet ys idx = .ok yrow ∧
            s = sampleOf idx (m row.toFloat32 ds.rate)
                  (m row.toFloat32 ds.rate).missing_mask tp fpm cl
                  (some yrow.toLong) ∧
            s.length = 8 ∧ s.getLast? = some yrow.toLong)) ∧
    ((ds.fetch_data_from_file m idx).2 = .ok s →
      ∃ row tp fpm cl,
        listGet ds.effectiveHandle.X idx = .ok row ∧
        (¬(ds.effectiveHandle.y.isSome ∧ ds.return_labels = true) →
          s = sampleOf idx (m row.toFloat32 ds.rate)
                (m row.toFloat32 ds.rate).indicating_mask tp fpm cl none ∧
          s.length = 7) ∧
        (∀ ys, ds.effectiveHandle.y = some ys → ds.return_labels = true →
          ∃ yrow, listGet ys idx = .ok yrow ∧
            s = sampleOf idx (m row.toFloat32 ds.rate)
                  (m row.toFloat32 ds.rate).indicating_mask tp fpm cl
                  (some yrow.toLong) ∧
            s.length = 8 ∧ s.getLast? = some yrow.toLong)) := by
  constructor
  · intro h
    obtain ⟨row, tp, fpm, cl, lbl, hX, _, _, _, hlbl, hs⟩ := fetch_array_ok h
    refine ⟨row, tp, fpm, cl, hX, ?_, ?_⟩
    · intro hno
      rcases hlbl with ⟨rfl, _⟩ | ⟨ys, yrow, hys, hrl, _, _⟩
      · exact ⟨hs, by rw [hs, sampleOf_length_none]⟩
      · exact absurd ⟨by simp [hys], hrl⟩ hno
    · intro ys hys hrl
      rcases hlbl with ⟨rfl, hor⟩ | ⟨ys', yrow, hys', hrl', hy, rfl⟩
      · rcases hor with hor | hor
        · rw [hys] at hor; cases hor
        · rw [hrl] at hor; cases hor
      · rw [hys] at hys'
        cases hys'
        exact ⟨yrow, hy, hs,
          by rw [hs, sampleOf_length_some],
          by rw [hs, sampleOf_getLast_some]⟩
  · intro h
    obtain ⟨row, tp, fpm, cl, lbl, hX, _, _, _, hlbl, hs⟩ := fetch_file_ok h
    refine ⟨row, tp, fpm, cl, hX, ?_, ?_⟩
    · intro hno
      rcases hlbl with ⟨rfl, _⟩ | ⟨ys, yrow, hys, hrl, _, _⟩
      · exact ⟨hs, by rw [hs, sampleOf_length_none]⟩
      · exact absurd ⟨by simp [hys], hrl⟩ hno
    · intro ys hys hrl
      rcases hlbl with ⟨rfl, hor⟩ | ⟨ys', yrow, hys', hrl', hy, rfl⟩
      · rcases hor with hor | hor
        · rw [hys] at hor; cases hor
        · rw [hrl] at hor; cases hor
      · rw [hys] at hys'
        cases hys'
        exact ⟨yrow, hy, hs,
          by rw [hs, sampleOf_length_some],
          by rw [hs, sampleOf_getLast_some]⟩

/-- Witness for C2 at the labelled fixture (length-8 case in both modes). -/
theorem claim_C2_witness :
    (∃ row tp fpm cl,
      listGet exDSy.data.X 0 = .ok row ∧
      (¬(exDSy.data.y.isSome ∧ exDSy.return_labels = true) →
        exSampleAY = sampleOf 0 (exM row.toFloat32 exDSy.rate)
              (exM row.toFloat32 exDSy.rate).missing_mask tp fpm cl none ∧
        exSampleAY.length = 7) ∧
      (∀ ys, exDSy.data.y = some ys → exDSy.return_labels = true →
        ∃ yrow, listGet ys 0 = .ok yrow ∧
          exSampleAY = sampleOf 0 (exM row.toFloat32 exDSy.rate)
                (exM row.toFloat32 exDSy.rate).missing_mask tp fpm cl
                (some yrow.toLong) ∧
          exSampleAY.length = 8 ∧ exSampleAY.getLast? = some yrow.toLong)) ∧
    (∃ row tp fpm cl,
      listGet exDSy.effectiveHandle.X 0 = .ok row ∧
      (¬(exDSy.effectiveHandle.y.isSome ∧ exDSy.return_labels = true) →
        exSampleFY = sampleOf 0 (exM row.toFloat32 exDSy.rate)
              (exM row.toFloat32 exDSy.rate).indicating_mask tp fpm cl none ∧
        exSampleFY.length = 7) ∧
      (∀ ys, exDSy.effectiveHandle.y = some ys → exDSy.return_labels = true →
        ∃ yrow, listGet ys 0 = .ok yrow ∧
          exSampleFY = sampleOf 0 (exM row.toFloat32 exDSy.rate)
                (exM row.toFloat32 exDSy.rate).indicating_mask tp fpm cl
                (some yrow.toLong) ∧
          exSampleFY.length = 8 ∧ exSampleFY.getLast? = some yrow.toLong)) :=
  ⟨(claim_C2_sample_shape exDSy exM 0 exSampleAY).1
      (by simp [DatasetForCSDI.fetch_data_from_array, listGet, exDSy, exDS,
        exSrcY, exSrc, exM, exRow, exYrow, Tensor.add, Tensor.toFloat32,
        Tensor.toLong, Tensor.zeros, Tensor.arangeF, Tensor.len,
        Tensor.scalarInt, exSampleAY, exSampleA, DType.promote, qtrunc,
        List.range_succ]),
   (claim_C2_sample_shape exDSy exM 0 exSampleFY).2
      (by simp [DatasetForCSDI.fetch_data_from_file, DatasetForCSDI.effectiveHandle,
        DatasetForCSDI.openFileHandle, listGet, exDSy, exDS, exSrcY, exSrc, exM,
        exRow, exYrow, Tensor.add, Tensor.toFloat32, Tensor.toLong, Tensor.zeros,
        Tensor.arangeF, Tensor.len, Tensor.scalarInt, exSampleFY, exSampleF,
        DType.promote, qtrunc, List.range_succ])⟩

/-- C3: in both storage modes, position 2 of the returned sample
(`observed_mask`) is the pointwise sum of the masker's `missing_mask` and
`indicating_mask`; when the two masks are binary and pointwise disjoint this
sum equals their pointwise logical OR and every entry is 0 or 1. -/
theorem claim_C3_observed_mask (ds : DatasetForCSDI) (m : Tensor → ℚ → MCARResult)
    (idx : Nat) (row : Tensor) (s : List Tensor) :
    ((listGet ds.data.X idx = .ok row →
      (ds.fetch_data_from_array m idx).2 = .ok s →
      s.get? 2 = some ((m row.toFloat32 ds.rate).missing_mask.add
        (m row.toFloat32 ds.rate).indicating_mask)) ∧
     (listGet ds.effectiveHandle.X idx = .ok row →
      (ds.fetch_data_from_file m idx).2 = .ok s →
      s.get? 2 = some ((m row.toFloat32 ds.rate).missing_mask.add
        (m row.toFloat32 ds.rate).indicating_mask))) ∧
    (BinaryT (m row.toFloat32 ds.rate).missing_mask →
     BinaryT (m row.toFloat32 ds.rate).indicating_mask →
     DisjointT (m row.toFloat32 ds.rate).missing_mask
       (m row.toFloat32 ds.rate).indicating_mask →
     ((m row.toFloat32 ds.rate).missing_mask.add
        (m row.toFloat32 ds.rate).indicating_mask).data =
       List.zipWith orQ (m row.toFloat32 ds.rate).missing_mask.data
         (m row.toFloat32 ds.rate).indicating_mask.data ∧
     BinaryT ((m row.toFloat32 ds.rate).missing_mask.add
       (m row.toFloat32 ds.rate).indicating_mask)) := by
  refine ⟨⟨?_, ?_⟩, ?_⟩
  · intro hrow h
    obtain ⟨row', tp, fpm, cl, lbl, hX, _, _, _, _, hs⟩ := fetch_array_ok h
    rw [hrow] at hX
    cases hX
    rw [hs, sampleOf_get?_2]
  · intro hrow h
    obtain ⟨row', tp, fpm, cl, lbl, hX, _, _, _, _, hs⟩ := fetch_file_ok h
    rw [hrow] at hX
    cases hX
    rw [hs, sampleOf_get?_2]
  · intro hmm him hd
    obtain ⟨h1, h2⟩ := zipWith_add_binary_disjoint
      (m row.toFloat32 ds.rate).missing_mask.data
      (m row.toFloat32 ds.rate).indicating_mask.data hmm him hd
    exact ⟨h1, h2⟩

/-- Witness for C3 at the concrete fixture. -/
theorem claim_C3_witness :
    (exSampleA.get? 2 = some ((exM exRow.toFloat32 exDS.rate).missing_mask.add
        (exM exRow.toFloat32 exDS.rate).indicating_mask) ∧
     exSampleF.get? 2 = some ((exM exRow.toFloat32 exDS.rate).missing_mask.add
        (exM exRow.toFloat32 exDS.rate).indicating_mask)) ∧
    (((exM exRow.toFloat32 exDS.rate).missing_mask.add
        (exM exRow.toFloat32 exDS.rate).indicating_mask).data =
      List.zipWith orQ (exM exRow.toFloat32 exDS.rate).missing_mask.data
        (exM exRow.toFloat32 exDS.rate).indicating_mask.data ∧
     BinaryT ((exM exRow.toFloat32 exDS.rate).missing_mask.add
       (exM exRow.toFloat32 exDS.rate).indicating_mask)) := by
  have hc := claim_C3_observed_mask exDS exM 0 exRow
  refine ⟨⟨(hc exSampleA).1.1 (by simp [listGet, exDS, exSrc])
      (by simp [DatasetForCSDI.fetch_data_from_array, listGet, exDS, exSrc, exM,
        exRow, Tensor.add, Tensor.toFloat32, Tensor.toLong, Tensor.zeros,
        Tensor.arangeF, Tensor.len, Tensor.scalarInt, exSampleA, DType.promote,
        qtrunc, List.range_succ]),
    (hc exSampleF).1.2
      (by simp [listGet, exDS, exSrc, DatasetForCSDI.effectiveHandle,
        DatasetForCSDI.openFileHandle])
      (by simp [DatasetForCSDI.fetch_data_from_file, DatasetForCSDI.effectiveHandle,
        DatasetForCSDI.openFileHandle, listGet, exDS, exSrc, exM,
        exRow, Tensor.add, Tensor.toFloat32, Tensor.toLong, Tensor.zeros,
        Tensor.arangeF, Tensor.len, Tensor.scalarInt, exSampleF, DType.promote,
        qtrunc, List.range_succ])⟩,
    (hc exSampleA).2
      (by intro v hv; simp [exM, exRow, Tensor.toFloat32] at hv; simp [hv])
      (by intro v hv; simp [exM, exRow, Tensor.toFloat32] at hv; simp [hv])
      (by intro p hp; simp [exM, exRow, Tensor.toFloat32] at hp; simp [hp])⟩

/-- Fixture: a second draw of the masker, differing from `exM` in the two
masks (everything synthetically hidden instead of nothing). -/
def exM2 : Tensor → ℚ → MCARResult := fun X _ =>
  { X_intact := X, X := X,
    missing_mask := ⟨.float32, X.shape, List.replicate X.data.length 0⟩,
    indicating_mask := ⟨.float32, X.shape, List.replicate X.data.length 1⟩ }

/-- The sample `exDS.fetch_data_from_file exM2 0` produces. -/
def exSampleF2 : List Tensor :=
  [Tensor.scalarInt 0, ⟨.float32, [2, 1], [5, 0]⟩, ⟨.float32, [2, 1], [1, 1]⟩,
   ⟨.float32, [2], [0, 1]⟩, ⟨.float32, [2, 1], [1, 1]⟩,
   ⟨.float32, [2, 1], [1, 1]⟩, ⟨.int64, [2], [0, 0]⟩]

/-- C4, counterexample: two file-mode fetches of the same in-range index with
different mask draws return different values at position 5 — the
`for_pattern_mask` default (the source has no `for_pattern_mask` field) is the
random `gt_mask`, so it is not a non-random field as claimed. -/
theorem claim_C4_counterexample :
    (exDS.fetch_data_from_file exM 0).2 = .ok exSampleF ∧
    (exDS.fetch_data_from_file exM2 0).2 = .ok exSampleF2 ∧
    exDS.effectiveHandle.for_pattern_mask = none ∧
    exSampleF.get? 5 ≠ exSampleF2.get? 5 := by
  refine ⟨?_, ?_, rfl, ?_⟩
  · simp [DatasetForCSDI.fetch_data_from_file, DatasetForCSDI.effectiveHandle,
      DatasetForCSDI.openFileHandle, listGet, exDS, exSrc, exM,
      exRow, Tensor.add, Tensor.toFloat32, Tensor.toLong, Tensor.zeros,
      Tensor.arangeF, Tensor.len, Tensor.scalarInt, exSampleF, DType.promote,
      qtrunc, List.range_succ]
  · simp [DatasetForCSDI.fetch_data_from_file, DatasetForCSDI.effectiveHandle,
      DatasetForCSDI.openFileHandle, listGet, exDS, exSrc, exM2,
      exRow, Tensor.add, Tensor.toFloat32, Tensor.toLong, Tensor.zeros,
      Tensor.arangeF, Tensor.len, Tensor.scalarInt, exSampleF2, DType.promote,
      qtrunc, List.range_succ]
  · simp [exSampleF, exSampleF2]

/-- C4, amended: in both storage modes, two fetches of the same in-range
index agree on the index, `time_points` and `cut_length` elements, provided
the masker preserves the shape of its input (the masker contract); the
`for_pattern_mask` default equals the fetch's random `gt_mask` and may
differ between fetches, as may `observed_data` and the masks. -/
theorem claim_C4_nonrandom_fields (ds : DatasetForCSDI)
    (m1 m2 : Tensor → ℚ → MCARResult) (idx : Nat) (s1 s2 : List Tensor)
    (hsh1 : ∀ X p, ((m1 X p).X_intact).shape = X.shape)
    (hsh2 : ∀ X p, ((m2 X p).X_intact).shape = X.shape) :
    ((ds.fetch_data_from_array m1 idx).2 = .ok s1 →
     (ds.fetch_data_from_array m2 idx).2 = .ok s2 →
     s1.get? 0 = s2.get? 0 ∧ s1.get? 3 = s2.get? 3 ∧ s1.get? 6 = s2.get? 6) ∧
    ((ds.fetch_data_from_file m1 idx).2 = .ok s1 →
     (ds.fetch_data_from_file m2 idx).2 = .ok s2 →
     s1.get? 0 = s2.get? 0 ∧ s1.get? 3 = s2.get? 3 ∧ s1.get? 6 = s2.get? 6) := by
  constructor
  · intro h1 h2
    obtain ⟨row1, tp1, fpm1, cl1, lbl1, hX1, htp1, _, hcl1, _, hs1⟩ := fetch_array_ok h1
    obtain ⟨row2, tp2, fpm2, cl2, lbl2, hX2, htp2, _, hcl2, _, hs2⟩ := fetch_array_ok h2
    rw [hX1] at hX2
    injection hX2 with hrow
    subst hrow
    refine ⟨?_, ?_, ?_⟩
    · rw [hs1, hs2, sampleOf_get?_0, sampleOf_get?_0]
    · rw [hs1, hs2, sampleOf_get?_3, sampleOf_get?_3]
      rcases htp1 with ⟨hn1, rfl⟩ | ⟨tps1, t1, hs1', hg1, rfl⟩ <;>
        rcases htp2 with ⟨hn2, rfl⟩ | ⟨tps2, t2, hs2', hg2, rfl⟩
      · rfl
      · rw [hn1] at hs2'; cases hs2'
      · rw [hn2] at hs1'; cases hs1'
      · rw [hs1'] at hs2'
        injection hs2' with he
        subst he
        rw [hg1] at hg2
        injection hg2 with he2
        rw [he2]
    · rw [hs1, hs2, sampleOf_get?_6, sampleOf_get?_6]
      rcases hcl1 with ⟨hn1, rfl⟩ | ⟨cls1, t1, hs1', hg1, rfl⟩ <;>
        rcases hcl2 with ⟨hn2, rfl⟩ | ⟨cls2, t2, hs2', hg2, rfl⟩
      · have hlen : (m1 row1.toFloat32 ds.rate).X_intact.len =
            (m2 row1.toFloat32 ds.rate).X_intact.len := by
          unfold Tensor.len
          rw [hsh1, hsh2]
        rw [hlen]
      · rw [hn1] at hs2'; cases hs2'
      · rw [hn2] at hs1'; cases hs1'
      · rw [hs1'] at hs2'
        injection hs2' with he
        subst he
        rw [hg1] at hg2
        injection hg2 with he2
        rw [he2]
  · intro h1 h2
    obtain ⟨row1, tp1, fpm1, cl1, lbl1, hX1, htp1, _, hcl1, _, hs1⟩ := fetch_file_ok h1
    obtain ⟨row2, tp2, fpm2, cl2, lbl2, hX2, htp2, _, hcl2, _, hs2⟩ := fetch_file_ok h2
    rw [hX1] at hX2
    injection hX2 with hrow
    subst hrow
    refine ⟨?_, ?_, ?_⟩
    · rw [hs1, hs2, sampleOf_get?_0, sampleOf_get?_0]
    · rw [hs1, hs2, sampleOf_get?_3, sampleOf_get?_3]
      rcases htp1 with ⟨hn1, rfl⟩ | ⟨tps1, t1, hs1', hg1, rfl⟩ <;>
        rcases htp2 with ⟨hn2, rfl⟩ | ⟨tps2, t2, hs2', hg2, rfl⟩
      · rfl
      · rw [hn1] at hs2'; cases hs2'
      · rw [hn2] at hs1'; cases hs1'
      · rw [hs1'] at hs2'
        injection hs2' with he
        subst he
        rw [hg1] at hg2
        injection hg2 with he2
        rw [he2]
    · rw [hs1, hs2, sampleOf_get?_6, sampleOf_get?_6]
      rcases hcl1 with ⟨hn1, rfl⟩ | ⟨cls1, t1, hs1', hg1, rfl⟩ <;>
        rcases hcl2 with ⟨hn2, rfl⟩ | ⟨cls2, t2, hs2', hg2, rfl⟩
      · have hlen : (m1 row1.toFloat32 ds.rate).X_intact.len =
            (m2 row1.toFloat32 ds.rate).X_intact.len := by
          unfold Tensor.len
          rw [hsh1, hsh2]
        rw [hlen]
      · rw [hn1] at hs2'; cases hs2'
      · rw [hn2] at hs1'; cases hs1'
      · rw [hs1'] at hs2'
        injection hs2' with he
        subst he
        rw [hg1] at hg2
        injection hg2 with he2
        rw [he2]

/-- Witness for the amended C4 at the concrete fixture: two different mask
draws, equal index/time_points/cut_length elements in both modes. -/
theorem claim_C4_witness :
    (exSampleA.get? 0 = exSampleF.get? 0 ∧ exSampleA.get? 3 = exSampleF.get? 3 ∧
     exSampleA.get? 6 = exSampleF.get? 6) ∧
    (exSampleF.get? 0 = exSampleF2.get? 0 ∧ exSampleF.get? 3 = exSampleF2.get? 3 ∧
     exSampleF.get? 6 = exSampleF2.get? 6) :=
  ⟨(claim_C4_nonrandom_fields exDS exM exM2 0 exSampleA exSampleF
      (fun _ _ => rfl) (fun _ _ => rfl)).1
      (by simp [DatasetForCSDI.fetch_data_from_array, listGet, exDS, exSrc, exM,
        exRow, Tensor.add, Tensor.toFloat32, Tensor.toLong, Tensor.zeros,
        Tensor.arangeF, Tensor.len, Tensor.scalarInt, exSampleA, DType.promote,
        qtrunc, List.range_succ])
      (by simp [DatasetForCSDI.fetch_data_from_array, listGet, exDS, exSrc, exM2,
        exRow, Tensor.add, Tensor.toFloat32, Tensor.toLong, Tensor.zeros,
        Tensor.arangeF, Tensor.len, Tensor.scalarInt, exSampleF, DType.promote,
        qtrunc, List.range_succ]),
   (claim_C4_nonrandom_fields exDS exM exM2 0 exSampleF exSampleF2
      (fun _ _ => rfl) (fun _ _ => rfl)).2
      (by simp [DatasetForCSDI.fetch_data_from_file, DatasetForCSDI.effectiveHandle,
        DatasetForCSDI.openFileHandle, listGet, exDS, exSrc, exM,
        exRow, Tensor.add, Tensor.toFloat32, Tensor.toLong, Tensor.zeros,
        Tensor.arangeF, Tensor.len, Tensor.scalarInt, exSampleF, DType.promote,
        qtrunc, List.range_succ])
      (by simp [DatasetForCSDI.fetch_data_from_file, DatasetForCSDI.effectiveHandle,
        DatasetForCSDI.openFileHandle, listGet, exDS, exSrc, exM2,
        exRow, Tensor.add, Tensor.toFloat32, Tensor.toLong, Tensor.zeros,
        Tensor.arangeF, Tensor.len, Tensor.scalarInt, exSampleF2, DType.promote,
        qtrunc, List.range_succ])⟩

lemma zeros_toLong (n : Nat) :
    (Tensor.zeros n).toLong = ⟨.int64, [n], List.replicate n 0⟩ := by
  simp [Tensor.zeros, Tensor.toLong, List.map_replicate, qtrunc]

/-- Fixture: `exSrc` with a `cut_length` field present. -/
def exSrcC : DataSource := { exSrc with cut_length := some [⟨.int64, [2], [4, 4]⟩] }

/-- Fixture: a dataset whose source has a `cut_length` field. -/
def exDSC : DatasetForCSDI := { exDS with data := exSrcC, fileContents := exSrcC }

/-- The sample `exDSC.fetch_data_from_array exM 0` produces: note the
`cut_length` element is float32, not an integer tensor. -/
def exSampleAC : List Tensor :=
  [Tensor.scalarInt 0, ⟨.float32, [2, 1], [5, 0]⟩, ⟨.float32, [2, 1], [1, 1]⟩,
   ⟨.float32, [2], [0, 1]⟩, ⟨.float32, [2, 1], [1, 1]⟩,
   ⟨.float32, [2, 1], [1, 1]⟩, ⟨.float32, [2], [4, 4]⟩]

/-- C5, counterexample: with a `cut_length` field present, the in-memory path
returns a float32 `cut_length` (it casts with `.to(torch.float32)`), not an
integer-typed one as the claim states. -/
theorem claim_C5_counterexample :
    (exDSC.fetch_data_from_array exM 0).2 = .ok exSampleAC ∧
    exDSC.data.cut_length = some [⟨.int64, [2], [4, 4]⟩] ∧
    exSampleAC.get? 6 = some ⟨.float32, [2], [4, 4]⟩ ∧
    (⟨.float32, [2], [4, 4]⟩ : Tensor).dtype ≠ DType.int64 := by
  refine ⟨?_, rfl, rfl, by simp⟩
  simp [DatasetForCSDI.fetch_data_from_array, listGet, exDSC, exDS, exSrcC,
    exSrc, exM, exRow, Tensor.add, Tensor.toFloat32, Tensor.toLong,
    Tensor.zeros, Tensor.arangeF, Tensor.len, Tensor.scalarInt, exSampleAC,
    DType.promote, qtrunc, List.range_succ]

/-- C5, amended: for every in-range index, when the source lacks a
`cut_length` field both storage modes return a zero vector of length equal to
the step count with integer (int64) dtype; when the source has a `cut_length`
field, BOTH paths cast it to floating point (float32). -/
theorem claim_C5_cut_length (ds : DatasetForCSDI) (m : Tensor → ℚ → MCARResult)
    (idx : Nat) (row : Tensor) (s : List Tensor)
    (hsh : ∀ X p, ((m X p).X_intact).shape = X.shape) :
    (listGet ds.data.X idx = .ok row → row.shape.headD 0 = ds.n_steps →
      (ds.fetch_data_from_array m idx).2 = .ok s →
      (ds.data.cut_length = none →
        s.get? 6 = some ⟨.int64, [ds.n_steps], List.replicate ds.n_steps 0⟩) ∧
      (∀ cls, ds.data.cut_length = some cls →
        ∃ t, listGet cls idx = .ok t ∧ s.get? 6 = some t.toFloat32 ∧
          t.toFloat32.dtype = .float32)) ∧
    (listGet ds.effectiveHandle.X idx = .ok row →
      row.shape.headD 0 = ds.n_steps →
      (ds.fetch_data_from_file m idx).2 = .ok s →
      (ds.effectiveHandle.cut_length = none →
        s.get? 6 = some ⟨.int64, [ds.n_steps], List.replicate ds.n_steps 0⟩) ∧
      (∀ cls, ds.effectiveHandle.cut_length = some cls →
        ∃ t, listGet cls idx = .ok t ∧ s.get? 6 = some t.toFloat32 ∧
          t.toFloat32.dtype = .float32)) := by
  constructor
  · intro hrow hsteps h
    obtain ⟨row', tp, fpm, cl, lbl, hX, _, _, hcl, _, hs⟩ := fetch_array_ok h
    rw [hrow] at hX
    injection hX with he
    subst he
    constructor
    · intro habs
      rcases hcl with ⟨_, rfl⟩ | ⟨cls, t, hsome, _, _⟩
      · rw [hs, sampleOf_get?_6, zeros_toLong]
        have hlen : (m row.toFloat32 ds.rate).X_intact.len = ds.n_steps := by
          unfold Tensor.len
          rw [hsh]
          exact hsteps
        rw [hlen]
      · rw [habs] at hsome; cases hsome
    · intro cls hsome
      rcases hcl with ⟨hnone, _⟩ | ⟨cls', t, hsome', hg, rfl⟩
      · rw [hsome] at hnone; cases hnone
      · rw [hsome] at hsome'
        injection hsome' with he
        subst he
        exact ⟨t, hg, by rw [hs, sampleOf_get?_6], rfl⟩
  · intro hrow hsteps h
    obtain ⟨row', tp, fpm, cl, lbl, hX, _, _, hcl, _, hs⟩ := fetch_file_ok h
    rw [hrow] at hX
    injection hX with he
    subst he
    constructor
    · intro habs
      rcases hcl with ⟨_, rfl⟩ | ⟨cls, t, hsome, _, _⟩
      · rw [hs, sampleOf_get?_6, zeros_toLong]
        have hlen : (m row.toFloat32 ds.rate).X_intact.len = ds.n_steps := by
          unfold Tensor.len
          rw [hsh]
          exact hsteps
        rw [hlen]
      · rw [habs] at hsome; cases hsome
    · intro cls hsome
      rcases hcl with ⟨hnone, _⟩ | ⟨cls', t, hsome', hg, rfl⟩
      · rw [hsome] at hnone; cases hnone
      · rw [hsome] at hsome'
        injection hsome' with he
        subst he
        exact ⟨t, hg, by rw [hs, sampleOf_get?_6], rfl⟩

/-- Witness for the amended C5: absent `cut_length` gives the int64 zero
vector (array mode of `exDS`), present `cut_length` gives a float32 cast
(array mode of `exDSC`). -/
theorem claim_C5_witness :
    exSampleA.get? 6 = some ⟨.int64, [exDS.n_steps],
      List.replicate exDS.n_steps 0⟩ ∧
    (∀ cls, exDSC.data.cut_length = some cls →
      ∃ t, listGet cls 0 = .ok t ∧ exSampleAC.get? 6 = some t.toFloat32 ∧
        t.toFloat32.dtype = .float32) :=
  ⟨((claim_C5_cut_length exDS exM 0 exRow exSampleA (fun _ _ => rfl)).1
      (by simp [listGet, exDS, exSrc]) (by simp [exRow, exDS])
      (by simp [DatasetForCSDI.fetch_data_from_array, listGet, exDS, exSrc, exM,
        exRow, Tensor.add, Tensor.toFloat32, Tensor.toLong, Tensor.zeros,
        Tensor.arangeF, Tensor.len, Tensor.scalarInt, exSampleA, DType.promote,
        qtrunc, List.range_succ])).1 rfl,
   ((claim_C5_cut_length exDSC exM 0 exRow exSampleAC (fun _ _ => rfl)).1
      (by simp [listGet, exDSC, exDS, exSrcC, exSrc])
      (by simp [exRow, exDSC, exDS])
      (by simp [DatasetForCSDI.fetch_data_from_array, listGet, exDSC, exDS,
        exSrcC, exSrc, exM, exRow, Tensor.add, Tensor.toFloat32, Tensor.toLong,
        Tensor.zeros, Tensor.arangeF, Tensor.len, Tensor.scalarInt, exSampleAC,
        DType.promote, qtrunc, List.range_succ])).2⟩

/-- Fixture: `exDS` with the file handle already opened. -/
def exDSH : DatasetForCSDI := { exDS with file_handle := some exSrc }

/-- C9: fetching mutates no dataset field except the lazily-opened file
handle — the in-memory path returns the state unchanged; the file path sets
`file_handle` to the handle in effect (opening it only when unset, keeping it
when set), and a second file fetch leaves the state fixed and reuses the same
handle. -/
theorem claim_C9_frame (ds : DatasetForCSDI) (m m2 : Tensor → ℚ → MCARResult)
    (idx idx2 : Nat) :
    (ds.fetch_data_from_array m idx).1 = ds ∧
    (ds.fetch_data_from_file m idx).1 =
      { ds with file_handle := some ds.effectiveHandle } ∧
    (ds.file_handle = none → ds.effectiveHandle = ds.openFileHandle) ∧
    (∀ h, ds.file_handle = some h →
      ds.effectiveHandle = h ∧ (ds.fetch_data_from_file m idx).1 = ds) ∧
    ((ds.fetch_data_from_file m idx).1.fetch_data_from_file m2 idx2).1 =
      (ds.fetch_data_from_file m idx).1 ∧
    ((ds.fetch_data_from_file m idx).1).effectiveHandle = ds.effectiveHandle := by
  refine ⟨rfl, rfl, ?_, ?_, rfl, rfl⟩
  · intro hnone
    unfold DatasetForCSDI.effectiveHandle
    rw [hnone]
  · intro h hsome
    constructor
    · unfold DatasetForCSDI.effectiveHandle
      rw [hsome]
    · show ({ ds with file_handle := some ds.effectiveHandle } : DatasetForCSDI) = ds
      unfold DatasetForCSDI.effectiveHandle
      rw [hsome]
      rw [← hsome]

/-- Witness for C9 at a fixture with an already-open handle. -/
theorem claim_C9_witness :
    exDSH.effectiveHandle = exSrc ∧ (exDSH.fetch_data_from_file exM 0).1 = exDSH :=
  (claim_C9_frame exDSH exM exM 0 0).2.2.2.1 exSrc rfl

/-- Fixture: a masker draw equal to `exM` except in the artificially-masked
series component (the second element of the 4-tuple). -/
def exMdrop : Tensor → ℚ → MCARResult := fun X p =>
  { exM X p with X := ⟨.float32, X.shape, List.replicate X.data.length 0⟩ }

/-- C10: in both storage modes the artificially-masked series returned by the
masker is discarded — the fetch result depends only on the masker's
`X_intact`, `missing_mask` and `indicating_mask` components (two maskers
agreeing on those three give identical results, whatever their masked
series), and `observed_data` (position 1) is the intact pre-masking
series. -/
theorem claim_C10_masked_series_unused (ds : DatasetForCSDI)
    (m1 m2 : Tensor → ℚ → MCARResult) (idx : Nat)
    (hint : ∀ X p, (m1 X p).X_intact = (m2 X p).X_intact)
    (hmm : ∀ X p, (m1 X p).missing_mask = (m2 X p).missing_mask)
    (him : ∀ X p, (m1 X p).indicating_mask = (m2 X p).indicating_mask) :
    ds.fetch_data_from_array m1 idx = ds.fetch_data_from_array m2 idx ∧
    ds.fetch_data_from_file m1 idx = ds.fetch_data_from_file m2 idx ∧
    (∀ s row, listGet ds.data.X idx = .ok row →
      (ds.fetch_data_from_array m1 idx).2 = .ok s →
      s.get? 1 = some (m1 row.toFloat32 ds.rate).X_intact) ∧
    (∀ s row, listGet ds.effectiveHandle.X idx = .ok row →
      (ds.fetch_data_from_file m1 idx).2 = .ok s →
      s.get? 1 = some (m1 row.toFloat32 ds.rate).X_intact) := by
  refine ⟨?_, ?_, ?_, ?_⟩
  · unfold DatasetForCSDI.fetch_data_from_array
    simp only [hint, hmm, him]
  · unfold DatasetForCSDI.fetch_data_from_file
    simp only [hint, hmm, him]
  · intro s row hrow h
    obtain ⟨row', tp, fpm, cl, lbl, hX, _, _, _, _, hs⟩ := fetch_array_ok h
    rw [hrow] at hX
    injection hX with he
    subst he
    rw [hs, sampleOf_get?_1]
  · intro s row hrow h
    obtain ⟨row', tp, fpm, cl, lbl, hX, _, _, _, _, hs⟩ := fetch_file_ok h
    rw [hrow] at hX
    injection hX with he
    subst he
    rw [hs, sampleOf_get?_1]

/-- Witness for C10: `exM` and `exMdrop` differ exactly in the masked-series
component, and every fetch result coincides. -/
theorem claim_C10_witness :
    exDS.fetch_data_from_array exM 0 = exDS.fetch_data_from_array exMdrop 0 ∧
    exDS.fetch_data_from_file exM 0 = exDS.fetch_data_from_file exMdrop 0 ∧
    exSampleA.get? 1 = some (exM exRow.toFloat32 exDS.rate).X_intact := by
  have hc := claim_C10_masked_series_unused exDS exM exMdrop 0
    (fun _ _ => rfl) (fun _ _ => rfl) (fun _ _ => rfl)
  exact ⟨hc.1, hc.2.1, hc.2.2.1 exSampleA exRow (by simp [listGet, exDS, exSrc])
    (by simp [DatasetForCSDI.fetch_data_from_array, listGet, exDS, exSrc, exM,
      exRow, Tensor.add, Tensor.toFloat32, Tensor.toLong, Tensor.zeros,
      Tensor.arangeF, Tensor.len, Tensor.scalarInt, exSampleA, DType.promote,
      qtrunc, List.range_succ])⟩

end PyPOTS.CSDI
